import Mathlib

/-!
# Interview-Copilot client state machines: a shallow embedding

This file embeds the client-side state logic of the Interview-Copilot web
application and proves the specified properties about it.  The embedded
pieces are:

* the practice-config store, session-identity manager and request
  orchestrator of `frontend/hooks/useCopilotSession.ts`;
* the difficulty input handler of
  `frontend/components/copilot/SessionSetupCard.tsx`;
* the multi-turn interview controller (`startInterview` / `submitAnswer`)
  of `frontend/lib/api.ts` (`InterviewClient`);
* the `useWeakTopics` hook with its cancellation flag.

Backend HTTP calls are modelled by passing the call's outcome
(`Except String <payload>`) as an explicit argument: each operation is the
function from the pre-call component state (and the outcomes of the calls
it performs) to the post-call component state, together with the list of
backend calls actually issued.  JavaScript truthiness of `number | null`
and `string | null` values is modelled explicitly (`0`, `""` and `null`
are falsy).  JS platform number/string conversions are modelled
explicitly: `Number(s)` with full ECMAScript `StringNumericLiteral`
semantics over exact rationals, `String(n)` and `parseInt(s, 10)` on
the forms this client produces and consumes.
-/

set_option maxHeartbeats 1000000

namespace InterviewCopilot

/-! ## Types mirrored from `frontend/types/copilot.ts` -/

inductive Mode | learn | interview
deriving DecidableEq, Inhabited

inductive Track | backend | frontend | fullstack
deriving DecidableEq, Inhabited

inductive Level | beginner | intermediate | advanced
deriving DecidableEq, Inhabited

inductive Skill
  | SQL | DSA | SystemDesign | React | Nextjs | TypeScript
  | JavaScript | HTML | CSS | WebPerformance | Testing
deriving DecidableEq, Inhabited

inductive QuestionType | conceptual | scenario | problem
deriving DecidableEq, Inhabited

structure EvalScores where
  correctness : Int
  completeness : Int
  clarity : Int
  depth : Int
  reasoning : Int
deriving DecidableEq

structure EvaluationJson where
  scores : EvalScores
  overall : Int
  strengths : List String
  gaps : List String
  improvements : List String
  model_answer : String
  next_drill_topic : String
deriving DecidableEq

structure WeakTopic where
  topic : String
  avg_overall : Int
  attempts : Nat
deriving DecidableEq

/-! ## JavaScript truthiness and number/string conversions -/

/-- Truthiness of a JS `number | null` value: `null` and `0` are falsy. -/
def jsTruthyNat : Option Nat → Bool
  | none => false
  | some n => n != 0

/-- Truthiness of a JS `string | null` value: `null` and `""` are falsy. -/
def jsTruthyStr : Option String → Bool
  | none => false
  | some s => s != ""

/-- Model of the JS platform primitive `s.trim()`: strip leading and
trailing whitespace (kernel-reducible, unlike `String.trim`). -/
def jsTrim (s : String) : String :=
  ⟨((s.data.dropWhile Char.isWhitespace).reverse.dropWhile
      Char.isWhitespace).reverse⟩

/-- The decimal digits of `n`, most significant first (all `< 10`). -/
def natDigits (n : Nat) : List Nat :=
  if n < 10 then [n] else natDigits (n / 10) ++ [n % 10]
termination_by n
decreasing_by
  exact Nat.div_lt_self (by omega) (by omega)

/-- Model of the JS platform conversion `String(n)` for a non-negative
integer `n`: its decimal representation. -/
def jsStringOfNat (n : Nat) : String :=
  ⟨(natDigits n).map Nat.digitChar⟩

/-- A JavaScript number as handled by this client: a finite value kept
as its exact rational magnitude, or an infinity.  (`NaN` is represented
by `none` at the `Option JsNum` level and is never stored in state.)
The exact value is kept instead of the IEEE-754 double it rounds to;
`jsGtZero` below accounts for the one place where rounding affects this
client's control flow. -/
inductive JsNum
  | num (q : ℚ)
  | inf
  | negInf
deriving DecidableEq

instance : Coe Nat JsNum := ⟨fun n => JsNum.num (n : ℚ)⟩

instance (n : Nat) : OfNat JsNum n := ⟨JsNum.num (n : ℚ)⟩

/-- JS unary minus on a number. -/
def JsNum.neg : JsNum → JsNum
  | .num q => .num (-q)
  | .inf => .negInf
  | .negInf => .inf

/-- JS truthiness of a number: only `0` (and `NaN`, which is never
stored) is falsy. -/
def JsNum.truthy : JsNum → Bool
  | .num q => q != 0
  | .inf => true
  | .negInf => true

/-- Truthiness of a JS `number | null` value held as `Option JsNum`. -/
def jsTruthyNum : Option JsNum → Bool
  | none => false
  | some k => k.truthy

/-- Numeric value of a list of decimal digit characters (callers
validate that the characters are digits). -/
def natOfDigits (l : List Char) : Nat :=
  l.foldl (fun a c => a * 10 + (c.toNat - 48)) 0

/-- The digit run of a `StrDecimalLiteral` exponent: non-empty, all
decimal digits, fully consumed. -/
def expDigits (l : List Char) : Option Int :=
  if l.isEmpty then none
  else if l.all Char.isDigit then some (natOfDigits l : Int) else none

/-- The optional exponent tail of a decimal literal: empty means
exponent `0`; otherwise `e`/`E`, an optional sign, and digits consuming
the rest of the input; anything else is a parse failure. -/
def jsParseExpTail (l : List Char) : Option Int :=
  match l with
  | [] => some 0
  | c :: rest =>
    if c = 'e' ∨ c = 'E' then
      match rest with
      | [] => none
      | c2 :: rest2 =>
        if c2 = '+' then expDigits rest2
        else if c2 = '-' then (expDigits rest2).map (fun v => -v)
        else expDigits rest
    else none

/-- Value of one hex digit character (decimal digits, `a`-`f`, `A`-`F`). -/
def radixVal (c : Char) : Option Nat :=
  if '0' ≤ c ∧ c ≤ '9' then some (c.toNat - 48)
  else if 'a' ≤ c ∧ c ≤ 'f' then some (c.toNat - 87)
  else if 'A' ≤ c ∧ c ≤ 'F' then some (c.toNat - 55)
  else none

/-- Digits of a `0x`/`0o`/`0b` integer literal in base `b`: non-empty,
every digit valid for the base. -/
def jsParseRadixDigits (b : Nat) (l : List Char) : Option ℚ :=
  if l.isEmpty then none
  else
    (l.foldl (fun acc c =>
      match acc, radixVal c with
      | some a, some v => if v < b then some (a * b + v) else none
      | _, _ => none) (some 0)).map (fun v => (v : ℚ))

/-- `StrUnsignedDecimalLiteral`: `Infinity`, or decimal digits with an
optional fraction and exponent (`DecimalDigits [. DecimalDigits] [Exp]`
or `. DecimalDigits [Exp]`), evaluated exactly over `ℚ`. -/
def jsParseUnsignedDec (l : List Char) : Option JsNum :=
  if l = "Infinity".data then some JsNum.inf
  else
    let ds1 := l.takeWhile Char.isDigit
    match l.drop ds1.length with
    | [] =>
        if ds1.isEmpty then none
        else some (JsNum.num (natOfDigits ds1 : ℚ))
    | '.' :: r2 =>
        let ds2 := r2.takeWhile Char.isDigit
        let r3 := r2.drop ds2.length
        if ds1.isEmpty ∧ ds2.isEmpty then none
        else
          (jsParseExpTail r3).map (fun e =>
            JsNum.num (((natOfDigits ds1 : ℚ)
              + (natOfDigits ds2 : ℚ) / 10 ^ ds2.length) * 10 ^ e))
    | r1 =>
        if ds1.isEmpty then none
        else (jsParseExpTail r1).map (fun e =>
          JsNum.num ((natOfDigits ds1 : ℚ) * 10 ^ e))

/-- `StrNumericLiteral`: an optional sign over an unsigned decimal
literal (a sign over a radix literal is a parse failure, as in JS), or
an unsigned `0x`/`0X` hex, `0o`/`0O` octal or `0b`/`0B` binary integer
literal. -/
def jsParseNumeric (l : List Char) : Option JsNum :=
  match l with
  | [] => none
  | c :: rest =>
    if c = '+' then jsParseUnsignedDec rest
    else if c = '-' then (jsParseUnsignedDec rest).map JsNum.neg
    else if c = '0' then
      match rest with
      | c2 :: rest2 =>
        if c2 = 'x' ∨ c2 = 'X' then (jsParseRadixDigits 16 rest2).map JsNum.num
        else if c2 = 'o' ∨ c2 = 'O' then (jsParseRadixDigits 8 rest2).map JsNum.num
        else if c2 = 'b' ∨ c2 = 'B' then (jsParseRadixDigits 2 rest2).map JsNum.num
        else jsParseUnsignedDec l
      | [] => jsParseUnsignedDec l
    else jsParseUnsignedDec l

/-- Model of the JS platform conversion `Number(s)`, following
ECMAScript `StringNumericLiteral` semantics: surrounding whitespace is
ignored, an empty or whitespace-only string is `0`, otherwise the
string must be exactly one numeric literal (decimal with optional sign,
fraction, exponent; `Infinity`; hex/octal/binary), and everything else
is `NaN` (`none`).  Values are kept exactly over `ℚ` rather than
rounded to IEEE-754 doubles (see `jsGtZero`). -/
def jsNumber (s : String) : Option JsNum :=
  let core := ((s.data.dropWhile Char.isWhitespace).reverse.dropWhile
      Char.isWhitespace).reverse
  match core with
  | [] => some (JsNum.num 0)
  | l => jsParseNumeric l

/-- The JS comparison `n > 0` on a parsed number, as it evaluates on
the IEEE-754 double the exact value rounds to: a finite exact value
compares `> 0` exactly when it exceeds `2 ^ (-1075)` — positive values
up to half the smallest subnormal (`2 ^ (-1074)`) round to `+0` under
round-to-nearest-even — and `+Infinity` is `> 0`. -/
def jsGtZero : JsNum → Bool
  | .num q => decide ((1 : ℚ) / 2 ^ 1075 < q)
  | .inf => true
  | .negInf => false

/-- Model of the JS platform conversion `String(k)` for a finite
number: exact for integers (the only values this client itself stores)
and for the terminating decimals `Number()` can parse; for such
non-integers the exact positional decimal expansion is produced (JS
switches to exponential notation only for magnitudes outside
`[1e-6, 1e21)`, which never flow through this client's storage writes). -/
def jsStringOfRat (q : ℚ) : String :=
  if q.den = 1 then
    if 0 ≤ q.num then jsStringOfNat q.num.toNat
    else "-" ++ jsStringOfNat (-q.num).toNat
  else
    let e := q.den
    let m := q.num.natAbs * 10 ^ e / q.den
    let ds0 := natDigits m
    let ds := List.replicate (e + 1 - ds0.length) 0 ++ ds0
    let intDigits := ds.take (ds.length - e)
    let fracDigits := ((ds.drop (ds.length - e)).reverse.dropWhile
        (· = 0)).reverse
    (if q.num < 0 then "-" else "")
      ++ ⟨intDigits.map Nat.digitChar⟩ ++ "." ++ ⟨fracDigits.map Nat.digitChar⟩

/-- `String(k)` for any stored JS number. -/
def jsStringOfNum : JsNum → String
  | .num q => jsStringOfRat q
  | .inf => "Infinity"
  | .negInf => "-Infinity"

/-- Leading digit run of a character list as a number, `none` if the list
does not start with a digit. -/
def takeLeadingDigits (l : List Char) : Option Nat :=
  let ds := l.takeWhile Char.isDigit
  if ds = [] then none
  else some (ds.foldl (fun a c => a * 10 + (c.toNat - 48)) 0)

/-- Model of JS `parseInt(s, 10)`: skip leading whitespace, optional
sign, then the leading digit run; `NaN` (`none`) if no digits follow. -/
def jsParseInt (s : String) : Option Int :=
  match s.data.dropWhile Char.isWhitespace with
  | [] => none
  | c :: cs =>
    if c = '-' then (takeLeadingDigits cs).map (fun n => -(n : Int))
    else if c = '+' then (takeLeadingDigits cs).map (fun n => (n : Int))
    else (takeLeadingDigits (c :: cs)).map (fun n => (n : Int))

/-! ## Config store (`useCopilotSession.ts`, lines 7–99)

`SKILLS_BY_TRACK` and `DEFAULT_TOPIC_BY_SKILL` are the literal tables of
the hook; `trackEffect` is the `useEffect` with dependency `[track]`
(lines 81–93) and `skillEffect` the one with dependency `[skill]`
(lines 96–99). -/

def SKILLS_BY_TRACK : Track → List Skill
  | .backend => [.SQL, .DSA, .SystemDesign]
  | .frontend =>
      [.React, .Nextjs, .TypeScript, .JavaScript, .HTML, .CSS,
       .WebPerformance, .Testing]
  | .fullstack =>
      [.SQL, .DSA, .SystemDesign, .React, .Nextjs, .TypeScript,
       .JavaScript, .HTML, .CSS, .WebPerformance, .Testing]

def DEFAULT_TOPIC_BY_SKILL : Skill → String
  | .SQL => "joins"
  | .DSA => "arrays"
  | .SystemDesign => "caching"
  | .React => "hooks"
  | .Nextjs => "routing"
  | .TypeScript => "types"
  | .JavaScript => "closures"
  | .HTML => "semantic HTML"
  | .CSS => "flexbox"
  | .WebPerformance => "Core Web Vitals"
  | .Testing => "unit testing"

/-- The full state held by `useCopilotSession` (one field per `useState`). -/
structure CopilotState where
  mode : Mode
  track : Track
  level : Level
  skill : Skill
  topic : String
  questionType : QuestionType
  difficulty : Int
  sessionId : Option JsNum
  hydrated : Bool
  qaItemId : Option Nat
  question : String
  answer : String
  evaluation : Option EvaluationJson
  hint : Option String
  hintLoading : Bool
  loading : Option String
  error : Option String
deriving DecidableEq

/-- The `useState` initial values of `useCopilotSession`. -/
def initCopilotState : CopilotState where
  mode := .interview
  track := .backend
  level := .intermediate
  skill := .SQL
  topic := "joins"
  questionType := .scenario
  difficulty := 3
  sessionId := none
  hydrated := false
  qaItemId := none
  question := ""
  answer := ""
  evaluation := none
  hint := none
  hintLoading := false
  loading := none
  error := none

/-- The track-alignment effect (`useEffect` on `[track]`, lines 81–93):
replace an out-of-track skill with `allowed[0]` and reseed the topic;
otherwise seed an empty topic from the current skill. -/
def trackEffect (s : CopilotState) : CopilotState :=
  let allowed := SKILLS_BY_TRACK s.track
  if s.skill ∈ allowed then
    if jsTrim s.topic = "" then { s with topic := DEFAULT_TOPIC_BY_SKILL s.skill }
    else s
  else
    let nextSkill := allowed.headI
    { s with skill := nextSkill, topic := DEFAULT_TOPIC_BY_SKILL nextSkill }

/-- The skill effect (`useEffect` on `[skill]`, lines 96–99): seed the
topic from the default-topic table only when it is empty. -/
def skillEffect (s : CopilotState) : CopilotState :=
  if jsTrim s.topic = "" then { s with topic := DEFAULT_TOPIC_BY_SKILL s.skill }
  else s

/-! ## Difficulty input handler (`SessionSetupCard.tsx`, lines 262–278) -/

/-- The `onChange` handler of the numeric difficulty `Input`:
`parseInt(value || "3", 10)`, then clamp with
`Math.min(5, Math.max(1, n))`, with `3` for non-finite results. -/
def difficultyOnChange (value : String) : Int :=
  match jsParseInt (if value = "" then "3" else value) with
  | some n => min 5 (max 1 n)
  | none => 3

/-! ## Session identity manager (`useCopilotSession.ts`, lines 102–118)

The single `localStorage` slot under the key `"copilot_session_id"` is
modelled as an `Option String` (absent key = `none`).  `hydrateEffect` is
the mount effect (lines 102–110), `persistEffect` the effect on
`[sessionId, hydrated]` (lines 113–118), returning the storage content it
leaves behind. -/

/-- Hydration: read the raw stored value; if it is truthy and
`Number(raw)` is not `NaN` and compares `> 0` (as the double it rounds
to, `jsGtZero`), adopt the parsed number as the session id; in every
case mark the hook hydrated. -/
def hydrateEffect (storage : Option String) (s : CopilotState) : CopilotState :=
  let s1 :=
    match storage with
    | some raw =>
      if raw != "" then
        match jsNumber raw with
        | some k => if jsGtZero k then { s with sessionId := some k } else s
        | none => s
      else s
    | none => s
  { s1 with hydrated := true }

/-- Persistence: once hydrated, a truthy session id is written back as
`String(sessionId)` and a falsy one removes the key. -/
def persistEffect (s : CopilotState) (storage : Option String) : Option String :=
  if s.hydrated then
    match s.sessionId with
    | some k => if k.truthy then some (jsStringOfNum k) else none
    | none => none
  else storage

/-! ## Request orchestrator (`useCopilotSession.ts`, lines 123–208)

Each `async` operation is embedded as the function from the pre-call
state and the backend call's outcome to the state after the whole
operation (including its `finally` block) has run.  The boolean result
records whether a backend call was issued. -/

structure CreateSessionOut where
  session_id : Nat
deriving DecidableEq

structure GenerateQuestionOut where
  qa_item_id : Nat
  question : String
deriving DecidableEq

structure EvaluateOut where
  overall : Int
  evaluation : EvaluationJson
deriving DecidableEq

structure HintOut where
  hint : Option String
deriving DecidableEq

/-- `createSession()` (lines 123–141): clear the error and all downstream
question/answer/evaluation/hint state, call the backend, store the new
session id on success or record the error message on failure; the
busy label is cleared in `finally`. -/
def createSession (s : CopilotState) (result : Except String CreateSessionOut) :
    CopilotState :=
  let s1 := { s with
    error := none
    evaluation := none
    question := ""
    answer := ""
    qaItemId := none
    hint := none
    hintLoading := false }
  match result with
  | .ok out => { s1 with sessionId := some out.session_id, loading := none }
  | .error e => { s1 with error := some e, loading := none }

/-- `generateQuestion()` (lines 143–175): no-op when the session id is
falsy; otherwise clear downstream state, call the backend (with the
track-validated skill and seeded topic), store the new question on
success or the error message on failure. -/
def generateQuestion (s : CopilotState) (result : Except String GenerateQuestionOut) :
    CopilotState × Bool :=
  if jsTruthyNum s.sessionId then
    let s1 := { s with
      error := none
      evaluation := none
      question := ""
      answer := ""
      qaItemId := none
      hint := none
      hintLoading := false }
    match result with
    | .ok out =>
        ({ s1 with qaItemId := some out.qa_item_id, question := out.question,
                   loading := none }, true)
    | .error e => ({ s1 with error := some e, loading := none }, true)
  else (s, false)

/-- `evaluateAnswer()` (lines 177–190): no-op when the question id is
falsy; otherwise call the backend with the current answer and replace
the evaluation on success or record the error message on failure. -/
def evaluateAnswer (s : CopilotState) (result : Except String EvaluateOut) :
    CopilotState × Bool :=
  if jsTruthyNat s.qaItemId then
    let s1 := { s with error := none }
    match result with
    | .ok out => ({ s1 with evaluation := some out.evaluation, loading := none }, true)
    | .error e => ({ s1 with error := some e, loading := none }, true)
  else (s, false)

/-- `getHint(level)` (lines 192–208): no-op when the question id is
falsy; runs under the independent `hintLoading` flag. -/
def getHint (s : CopilotState) (result : Except String HintOut) :
    CopilotState × Bool :=
  if jsTruthyNat s.qaItemId then
    let s1 := { s with error := none }
    match result with
    | .ok out => ({ s1 with hint := out.hint, hintLoading := false }, true)
    | .error e => ({ s1 with error := some e, hintLoading := false }, true)
  else (s, false)

/-! ## Interview turn controller (`frontend/lib/api.ts`, `InterviewClient`)

`startInterview` (lines 514–545), `fetchNextQuestion` (lines 547–568) and
`submitAnswer` (lines 570–628) over the component state of
`InterviewClient`.  A backend value typed `unknown` on the wire
(`current_difficulty`, inspected by `coerceLevel`) is modelled by the
`JsVal` sum. -/

/-- A dynamically inspected JS value: one of the three level strings,
some other string, a number, or anything else. -/
inductive JsVal
  | str (s : String)
  | num (n : Int)
  | other
deriving DecidableEq

/-- `coerceLevel` (api.ts lines 471–480): pass the three level strings
through, bucket numbers, and fall back to `"intermediate"`. -/
def coerceLevel (v : JsVal) : Level :=
  match v with
  | .str s =>
      if s = "beginner" then .beginner
      else if s = "intermediate" then .intermediate
      else if s = "advanced" then .advanced
      else .intermediate
  | .num n => if n ≤ 1 then .beginner else if n = 2 then .intermediate else .advanced
  | .other => .intermediate

structure InterviewStartOut where
  session_id : Nat
  first_question : String
  qa_item_id : Nat
deriving DecidableEq

structure InterviewNextOut where
  qa_item_id : Nat
  question : String
  is_follow_up : Bool
  turn_count : Nat
deriving DecidableEq

structure InterviewEvaluation where
  scores : List (String × Int)
  overall : Int
  strengths : List String
  gaps : List String
  improvements : List String
  model_answer : String
deriving DecidableEq

structure InterviewAnswerOut where
  evaluation : Option InterviewEvaluation
  follow_up_question : Option String
  follow_up_qa_item_id : Option Nat
  interview_complete : Bool
  current_difficulty : JsVal
  turn_count : Nat
deriving DecidableEq

/-- The question metadata attached at every `ChatItem` construction site
(each site sets all three fields). -/
structure QMeta where
  is_follow_up : Bool
  turn_count : Nat
  difficulty : Level
deriving DecidableEq

/-- One entry of the interview transcript (`ChatItem` in api.ts). -/
inductive ChatItem
  | question (qa_item_id : Nat) (text : String) (meta : QMeta)
  | answer (text : String)
  | evaluation (ev : InterviewEvaluation)
deriving DecidableEq

/-- A backend endpoint hit by the interview controller. -/
inductive ApiCall | interviewStart | interviewNext | interviewAnswer
deriving DecidableEq

/-- The component state of `InterviewClient` (one field per `useState`). -/
structure InterviewState where
  track : String
  level : Level
  interviewType : String
  sessionId : Option Nat
  currentQaId : Option Nat
  answer : String
  chat : List ChatItem
  turnCount : Nat
  currentDifficulty : Level
  busy : Bool
  error : Option String
deriving DecidableEq

/-- The `useState` initial values of `InterviewClient`. -/
def initInterviewState : InterviewState where
  track := "Backend"
  level := .intermediate
  interviewType := "Technical"
  sessionId := none
  currentQaId := none
  answer := ""
  chat := []
  turnCount := 0
  currentDifficulty := .intermediate
  busy := false
  error := none

/-- `startInterview()` (lines 514–545): on success adopt the new session
and first question, set the turn count to 1, the adaptive difficulty to
the requested level and the transcript to that single question; on
failure only record the error message. -/
def startInterview (s : InterviewState) (res : Except String InterviewStartOut) :
    InterviewState :=
  let s0 := { s with error := none }
  match res with
  | .ok out =>
      { s0 with
        sessionId := some out.session_id
        currentQaId := some out.qa_item_id
        turnCount := 1
        currentDifficulty := s.level
        chat := [ChatItem.question out.qa_item_id out.first_question
                  ⟨false, 1, s.level⟩]
        answer := ""
        busy := false }
  | .error e => { s0 with error := some e, busy := false }

/-- `submitAnswer()` (lines 570–628), with `fetchNextQuestion`
(lines 547–568) inlined for the no-follow-up, not-complete branch.

The backend outcomes of the two calls the operation may perform are the
explicit arguments `ansRes` (`POST /interview/answer`) and `nextRes`
(`POST /interview/next`, consulted only on the third branch).  The
returned list records the calls actually issued: the two validation
guards return before any network activity.  Note that the answer entry
is appended to the transcript before the backend call, and that the
question appended by `fetchNextQuestion` carries the stale
`currentDifficulty` captured by its closure. -/
def submitAnswer (s : InterviewState)
    (ansRes : Except String InterviewAnswerOut)
    (nextRes : Except String InterviewNextOut) :
    InterviewState × List ApiCall :=
  let s0 := { s with error := none }
  if s.sessionId.isSome ∧ s.currentQaId.isSome then
    let trimmed := jsTrim s.answer
    if trimmed = "" then
      ({ s0 with error := some "Please write an answer before submitting." }, [])
    else
      let s1 := { s0 with chat := s0.chat ++ [ChatItem.answer trimmed] }
      match ansRes with
      | .error e => ({ s1 with error := some e, busy := false }, [.interviewAnswer])
      | .ok res =>
        let s2 :=
          match res.evaluation with
          | some ev => { s1 with chat := s1.chat ++ [ChatItem.evaluation ev] }
          | none => s1
        let nextLevel := coerceLevel res.current_difficulty
        let s3 := { s2 with currentDifficulty := nextLevel, turnCount := res.turn_count }
        match res.follow_up_question, res.follow_up_qa_item_id with
        | some fq, some fqid =>
          if fq != "" && fqid != 0 then
            ({ s3 with
                currentQaId := some fqid
                chat := s3.chat ++ [ChatItem.question fqid fq ⟨true, res.turn_count, nextLevel⟩]
                answer := ""
                busy := false }, [.interviewAnswer])
          else completeOrNext s s3 res nextRes
        | _, _ => completeOrNext s s3 res nextRes
  else
    ({ s0 with error := some "No active interview. Please start again." }, [])
where
  /-- The tail of `submitAnswer` once the follow-up guard is falsy:
  either the interview is complete, or `fetchNextQuestion` runs. -/
  completeOrNext (s s3 : InterviewState) (res : InterviewAnswerOut)
      (nextRes : Except String InterviewNextOut) : InterviewState × List ApiCall :=
    if res.interview_complete then
      ({ s3 with currentQaId := none, answer := "", busy := false }, [.interviewAnswer])
    else
      match nextRes with
      | .error e =>
          ({ s3 with error := some e, busy := false }, [.interviewAnswer, .interviewNext])
      | .ok nxt =>
          ({ s3 with
              currentQaId := some nxt.qa_item_id
              turnCount := nxt.turn_count
              chat := s3.chat ++ [ChatItem.question nxt.qa_item_id nxt.question
                        ⟨nxt.is_follow_up, nxt.turn_count, s.currentDifficulty⟩]
              answer := ""
              busy := false }, [.interviewAnswer, .interviewNext])

/-! ## `useWeakTopics` (`src/unnamed/part_007`)

The hook's effect (dependencies `[sessionId, refreshKey]`) starts one
fetch per run and guards every state write of the asynchronous
continuation with a per-run `cancelled` flag; the effect's cleanup —
executed by React before the next run and at unmount — sets the flag.
The machine below gives each effect run a fresh identifier and keeps the
flags of all runs, so that traces interleaving dependency changes,
unmount, and late fetch resolutions can be analysed. -/

/-- The state held by `useWeakTopics`. -/
structure WeakState where
  weakTopics : List WeakTopic
  loadingWeak : Bool
  errorWeak : Option String
deriving DecidableEq

/-- A rejected fetch, with the JS error's `name` (the hook ignores
`"AbortError"`) and message. -/
structure FetchErr where
  name : String
  message : String
deriving DecidableEq

/-- The synchronous part of one effect run (part_007 lines 14–25): a
falsy session id resets all three fields; a truthy one raises the
loading flag and clears the error before the fetch starts. -/
def weakRunStart (sid : Option Nat) (s : WeakState) : WeakState :=
  if jsTruthyNat sid then { s with loadingWeak := true, errorWeak := none }
  else { weakTopics := [], loadingWeak := false, errorWeak := none }

/-- The asynchronous continuation of a run once its fetch settles
(part_007 lines 26–37): every write is guarded by the run's `cancelled`
flag, and a rejection named `"AbortError"` is ignored. -/
def weakRunResolve (cancelled : Bool) (res : Except FetchErr (List WeakTopic))
    (s : WeakState) : WeakState :=
  if cancelled then s
  else
    match res with
    | .ok data => { s with weakTopics := data, loadingWeak := false }
    | .error e =>
        if e.name = "AbortError" then { s with loadingWeak := false }
        else { s with errorWeak := some e.message, loadingWeak := false }

/-- A mounted `useWeakTopics` hook: its visible state, the current
session id, the identifier of the current effect run, the `cancelled`
flags of every run so far, and whether the component is still mounted. -/
structure WeakMachine where
  st : WeakState
  sessionId : Option Nat
  runId : Nat
  cancelled : Nat → Bool
  mounted : Bool

/-- An event in the life of the hook: the effect dependencies change
(new session id / refresh key), a run's fetch settles, or the component
unmounts. -/
inductive WeakEvent
  | depsChange (sid : Option Nat)
  | resolve (id : Nat) (res : Except FetchErr (List WeakTopic))
  | unmount

/-- Mounting the hook: React runs the effect once for the initial
dependencies. -/
def weakInit (sid : Option Nat) : WeakMachine where
  st := weakRunStart sid ⟨[], false, none⟩
  sessionId := sid
  runId := 0
  cancelled := fun _ => false
  mounted := true

/-- One step of the hook's event loop.  A dependency change first runs
the cleanup of the current run (setting its `cancelled` flag) and then
starts a fresh run; effects never re-run after unmount. -/
def weakStep (m : WeakMachine) (e : WeakEvent) : WeakMachine :=
  match e with
  | .depsChange sid =>
      if m.mounted then
        { st := weakRunStart sid m.st
          sessionId := sid
          runId := m.runId + 1
          cancelled := fun i => if i = m.runId then true else m.cancelled i
          mounted := true }
      else m
  | .resolve id res => { m with st := weakRunResolve (m.cancelled id) res m.st }
  | .unmount =>
      { m with
        cancelled := fun i => if i = m.runId then true else m.cancelled i
        mounted := false }

/-- The machines reachable from some mount of the hook. -/
inductive WeakReachable : WeakMachine → Prop
  | init (sid : Option Nat) : WeakReachable (weakInit sid)
  | step (m : WeakMachine) (e : WeakEvent) :
      WeakReachable m → WeakReachable (weakStep m e)

/-! ## Concrete example states used by the witnesses -/

/-- A copilot session that has already generated a question. -/
def c1ExState : CopilotState :=
  { initCopilotState with
      sessionId := some 7
      qaItemId := some 3
      question := "What is a JOIN?"
      answer := "inner join"
      hint := some "think keys" }

/-- An interview that has started and is awaiting the first answer. -/
def c2ExState : InterviewState :=
  { initInterviewState with
      sessionId := some 1
      currentQaId := some 2
      answer := "My answer"
      chat := [ChatItem.question 2 "Tell me about indexes" ⟨false, 1, .intermediate⟩]
      turnCount := 1 }

/-- A config state whose skill (React) is not allowed on its track
(backend). -/
def c3ExState : CopilotState := { initCopilotState with skill := Skill.React }

/-- The weak-topics hook mounted with session 1, whose dependencies then
change to session 2 while the first fetch is still in flight. -/
def c6TraceM1 : WeakMachine :=
  weakStep (weakInit (some 1)) (.depsChange (some 2))

/-- Every run older than the current one has been cancelled by its
cleanup, and after unmount the current run is cancelled too. -/
theorem weakReachable_cancelled {m : WeakMachine} (h : WeakReachable m) :
    (∀ i, i < m.runId → m.cancelled i = true) ∧
    (m.mounted = false → m.cancelled m.runId = true) := by
  induction h with
  | init sid => exact ⟨fun i hi => absurd hi (Nat.not_lt_zero i), by simp [weakInit]⟩
  | step m e hr ih =>
    rcases e with sid | ⟨id, res⟩ | _
    · by_cases hm : m.mounted
      · refine ⟨fun i hi => ?_, by simp [weakStep, hm]⟩
        simp only [weakStep, hm, if_true]
        by_cases hi0 : i = m.runId
        · simp [hi0]
        · have : i < m.runId := by
            simp only [weakStep, hm, if_true] at hi
            omega
          simp [hi0, ih.1 i this]
      · simpa [weakStep, hm] using ih
    · simpa [weakStep] using ih
    · refine ⟨fun i hi => ?_, fun _ => ?_⟩
      · simp only [weakStep] at hi ⊢
        by_cases hi0 : i = m.runId
        · simp [hi0]
        · simp [hi0, ih.1 i hi]
      · simp [weakStep]

/-! ## The decimal round trip

`Number(String(n)) = n` for the positive integers this client stores:
`jsNumber (jsStringOfNat n) = some (JsNum.num n)`. -/

theorem natDigits_ne_nil (n : Nat) : natDigits n ≠ [] := by
  rw [natDigits]
  split
  · simp
  · simp

theorem natDigits_lt_ten (n : Nat) : ∀ d ∈ natDigits n, d < 10 := by
  induction n using Nat.strong_induction_on with
  | _ n ih =>
    rw [natDigits]
    split
    · next h => intro d hd; simp only [List.mem_singleton] at hd; omega
    · next h =>
      intro d hd
      rcases List.mem_append.mp hd with h1 | h2
      · exact ih (n / 10) (Nat.div_lt_self (by omega) (by omega)) d h1
      · simp only [List.mem_singleton] at h2
        subst h2
        exact Nat.mod_lt n (by omega)

theorem natDigits_headI_ne_zero (n : Nat) (hn : 0 < n) :
    (natDigits n).headI ≠ 0 := by
  induction n using Nat.strong_induction_on with
  | _ n ih =>
    rw [natDigits]
    split
    · next h => simpa using hn.ne'
    · next h =>
      obtain ⟨d, ds, hds⟩ : ∃ d ds, natDigits (n / 10) = d :: ds := by
        cases hd : natDigits (n / 10) with
        | nil => exact absurd hd (natDigits_ne_nil (n / 10))
        | cons d ds => exact ⟨d, ds, rfl⟩
      have := ih (n / 10) (Nat.div_lt_self (by omega) (by omega))
        (Nat.div_pos (by omega) (by omega))
      rw [hds] at this ⊢
      simpa using this

theorem digitChar_isDigit : ∀ d, d < 10 → (Nat.digitChar d).isDigit = true := by
  decide

theorem digitChar_not_ws : ∀ d, d < 10 →
    (Nat.digitChar d).isWhitespace = false := by
  decide

theorem digitChar_toNat : ∀ d, d < 10 → (Nat.digitChar d).toNat - 48 = d := by
  decide

theorem digitChar_ne_marks : ∀ d, d < 10 →
    Nat.digitChar d ≠ '+' ∧ Nat.digitChar d ≠ '-' ∧ Nat.digitChar d ≠ 'I' := by
  decide

theorem digitChar_ne_zero : ∀ d, d < 10 → d ≠ 0 → Nat.digitChar d ≠ '0' := by
  decide

theorem dropWhile_all {p : Char → Bool} (l : List Char)
    (h : ∀ c ∈ l, p c = false) : l.dropWhile p = l := by
  cases l with
  | nil => rfl
  | cons c t =>
      rw [List.dropWhile_cons, h c (List.mem_cons_self c t)]
      simp

theorem takeWhile_all {p : Char → Bool} (l : List Char)
    (h : ∀ c ∈ l, p c = true) : l.takeWhile p = l := by
  induction l with
  | nil => rfl
  | cons c t ih =>
      rw [List.takeWhile_cons, h c (List.mem_cons_self c t)]
      simp [ih fun c hc => h c (List.mem_cons_of_mem _ hc)]

theorem foldl_digitChar_natDigits (n : Nat) : ∀ a : Nat,
    List.foldl (fun a c => a * 10 + (c.toNat - 48)) a
        ((natDigits n).map Nat.digitChar)
      = a * 10 ^ (natDigits n).length + n := by
  induction n using Nat.strong_induction_on with
  | _ n ih =>
    intro a
    rw [natDigits]
    split
    · next h =>
      simp only [List.map_cons, List.map_nil, List.foldl_cons, List.foldl_nil,
        digitChar_toNat n h, List.length_singleton, pow_one]
    · next h =>
      rw [List.map_append, List.foldl_append,
        ih (n / 10) (Nat.div_lt_self (by omega) (by omega)) a]
      simp only [List.map_cons, List.map_nil, List.foldl_cons, List.foldl_nil,
        digitChar_toNat (n % 10) (Nat.mod_lt n (by omega))]
      rw [List.length_append, List.length_singleton]
      have hsplit : (a * 10 ^ (natDigits (n / 10)).length + n / 10) * 10 + n % 10
          = a * 10 ^ ((natDigits (n / 10)).length + 1) + (10 * (n / 10) + n % 10) := by
        ring
      rw [hsplit, Nat.div_add_mod]

theorem natOfDigits_natDigits (n : Nat) :
    natOfDigits ((natDigits n).map Nat.digitChar) = n := by
  have := foldl_digitChar_natDigits n 0
  simpa [natOfDigits] using this

theorem jsStringOfNat_data (n : Nat) :
    (jsStringOfNat n).data = (natDigits n).map Nat.digitChar := rfl

theorem jsNumber_jsStringOfNat (n : Nat) (hn : 0 < n) :
    jsNumber (jsStringOfNat n) = some (JsNum.num (n : ℚ)) := by
  obtain ⟨d, ds, hds⟩ : ∃ d ds, natDigits n = d :: ds := by
    cases h : natDigits n with
    | nil => exact absurd h (natDigits_ne_nil n)
    | cons d ds => exact ⟨d, ds, rfl⟩
  have hd10 : d < 10 := natDigits_lt_ten n d (by rw [hds]; exact List.mem_cons_self d ds)
  have hd0 : d ≠ 0 := by
    have := natDigits_headI_ne_zero n hn
    rw [hds] at this
    simpa using this
  have hall : ∀ c ∈ (natDigits n).map Nat.digitChar, Char.isDigit c = true := by
    intro c hc
    obtain ⟨e, he, rfl⟩ := List.mem_map.mp hc
    exact digitChar_isDigit e (natDigits_lt_ten n e he)
  have hws : ∀ c ∈ (natDigits n).map Nat.digitChar, Char.isWhitespace c = false := by
    intro c hc
    obtain ⟨e, he, rfl⟩ := List.mem_map.mp hc
    exact digitChar_not_ws e (natDigits_lt_ten n e he)
  have hws_rev : ∀ c ∈ ((natDigits n).map Nat.digitChar).reverse,
      Char.isWhitespace c = false := by
    intro c hc
    exact hws c (List.mem_reverse.mp hc)
  have hstep1 : jsNumber (jsStringOfNat n)
      = jsParseNumeric ((natDigits n).map Nat.digitChar) := by
    simp only [jsNumber, jsStringOfNat_data, dropWhile_all _ hws,
      dropWhile_all _ hws_rev, List.reverse_reverse]
    rw [hds, List.map_cons]
  rw [hstep1, hds, List.map_cons]
  have hmarks := digitChar_ne_marks d hd10
  have hstep2 : jsParseNumeric (Nat.digitChar d :: (List.map Nat.digitChar ds))
      = jsParseUnsignedDec (Nat.digitChar d :: (List.map Nat.digitChar ds)) := by
    simp only [jsParseNumeric, if_neg hmarks.1, if_neg hmarks.2.1,
      if_neg (digitChar_ne_zero d hd10 hd0)]
  rw [hstep2]
  have hInf : Nat.digitChar d :: (List.map Nat.digitChar ds) ≠ "Infinity".data := by
    intro h
    have : Nat.digitChar d = 'I' := by
      have := congrArg List.headI h
      simpa using this
    exact hmarks.2.2 this
  have hallc : ∀ c ∈ Nat.digitChar d :: (List.map Nat.digitChar ds),
      Char.isDigit c = true := by
    rw [← List.map_cons, ← hds]
    exact hall
  have htw : (Nat.digitChar d :: (List.map Nat.digitChar ds)).takeWhile Char.isDigit
      = Nat.digitChar d :: (List.map Nat.digitChar ds) := takeWhile_all _ hallc
  simp only [jsParseUnsignedDec, if_neg hInf, htw, List.drop_length,
    List.isEmpty_cons]
  have : natOfDigits (Nat.digitChar d :: (List.map Nat.digitChar ds)) = n := by
    rw [← List.map_cons, ← hds]
    exact natOfDigits_natDigits n
  rw [this]
  simp

theorem jsStringOfNat_ne_empty (n : Nat) : jsStringOfNat n ≠ "" := by
  intro h
  have : (jsStringOfNat n).data = ("" : String).data := by rw [h]
  rw [jsStringOfNat_data] at this
  have hnil : (natDigits n).map Nat.digitChar = [] := this
  exact natDigits_ne_nil n (List.map_eq_nil_iff.mp hnil)

/-! ## Claims -/

theorem headI_mem_skills (t : Track) :
    (SKILLS_BY_TRACK t).headI ∈ SKILLS_BY_TRACK t := by
  cases t <;> decide

/-- C3: after the track-alignment effect has run, the skill is a member
of `SKILLS_BY_TRACK` for the (unchanged) track; and when the incoming
skill was invalid for the track, it is replaced by the first element of
the track's allowed list and the topic is reseeded from the
skill-to-default-topic table. -/
theorem c3_track_alignment (s : CopilotState) :
    (trackEffect s).track = s.track ∧
    (trackEffect s).skill ∈ SKILLS_BY_TRACK (trackEffect s).track ∧
    (s.skill ∉ SKILLS_BY_TRACK s.track →
      (trackEffect s).skill = (SKILLS_BY_TRACK s.track).headI ∧
      (trackEffect s).topic
        = DEFAULT_TOPIC_BY_SKILL ((SKILLS_BY_TRACK s.track).headI)) := by
  unfold trackEffect
  by_cases hmem : s.skill ∈ SKILLS_BY_TRACK s.track
  · by_cases ht : jsTrim s.topic = "" <;> simp [hmem, ht]
  · simp [hmem, headI_mem_skills s.track]

/-- Witness for C3 at a state whose skill (React) is invalid for its
track (backend). -/
theorem c3_witness :
    (trackEffect c3ExState).skill ∈ SKILLS_BY_TRACK (trackEffect c3ExState).track ∧
    (trackEffect c3ExState).skill = (SKILLS_BY_TRACK c3ExState.track).headI ∧
    (trackEffect c3ExState).topic
      = DEFAULT_TOPIC_BY_SKILL ((SKILLS_BY_TRACK c3ExState.track).headI) :=
  ⟨(c3_track_alignment c3ExState).2.1,
   ((c3_track_alignment c3ExState).2.2 (by decide)).1,
   ((c3_track_alignment c3ExState).2.2 (by decide)).2⟩

/-- C4: the difficulty input handler clamps every input string into the
inclusive range [1,5]; in particular `"99"` yields 5 and the non-numeric
`"abc"` yields 3. -/
theorem c4_difficulty_clamped :
    (∀ value : String,
      1 ≤ difficultyOnChange value ∧ difficultyOnChange value ≤ 5) ∧
    difficultyOnChange "99" = 5 ∧ difficultyOnChange "abc" = 3 := by
  refine ⟨fun value => ?_, by decide, by decide⟩
  unfold difficultyOnChange
  cases jsParseInt (if value = "" then "3" else value) with
  | none => exact ⟨by norm_num, by norm_num⟩
  | some n =>
      exact ⟨le_min (by norm_num) (le_max_left 1 n), min_le_left 5 _⟩

/-- C9: `evaluateAnswer()` with a null question identifier is a complete
no-op: the state is returned unchanged and no backend call is issued. -/
theorem c9_evaluate_noop (s : CopilotState) (result : Except String EvaluateOut)
    (h : s.qaItemId = none) : evaluateAnswer s result = (s, false) := by
  unfold evaluateAnswer
  rw [h]
  simp [jsTruthyNat]

/-- Witness for C9 at the initial hook state. -/
theorem c9_witness :
    evaluateAnswer initCopilotState (Except.error "Request failed")
      = (initCopilotState, false) :=
  c9_evaluate_noop initCopilotState (Except.error "Request failed") rfl

/-- C10: hydration adopts a stored value only when `Number()` parses it
to a number strictly greater than zero; any stored string that does not
(non-numeric, zero, or negative — `jsNumber` implements the full
`StringNumericLiteral` grammar and `jsGtZero` the double comparison
`> 0`) leaves the session id null while the hydrated flag still becomes
true. -/
theorem c10_hydration_guard (raw : String)
    (h : ∀ k : JsNum, jsNumber raw = some k → jsGtZero k = false) :
    (hydrateEffect (some raw) initCopilotState).sessionId = none ∧
    (hydrateEffect (some raw) initCopilotState).hydrated = true := by
  refine ⟨?_, rfl⟩
  unfold hydrateEffect
  by_cases hr : raw = ""
  · simp [hr, initCopilotState]
  · cases hj : jsNumber raw with
    | none => simp [hr, hj, initCopilotState]
    | some k => simp [hr, hj, h k hj, initCopilotState]

/-- Witness for C10 at the non-numeric stored string `"abc"`. -/
theorem c10_witness :
    (hydrateEffect (some "abc") initCopilotState).sessionId = none ∧
    (hydrateEffect (some "abc") initCopilotState).hydrated = true :=
  c10_hydration_guard "abc" (fun k hk => by
    rw [show jsNumber "abc" = none by decide] at hk
    exact Option.noConfusion hk)

/-- C5: the session identifier round-trips through the single
local-storage slot (key `"copilot_session_id"`): a positive session id
`n` set post-hydration is written as its decimal string by the persist
effect, and a fresh hydration from that storage recovers `n` as the
in-memory session id. -/
theorem c5_session_roundtrip (s : CopilotState) (stor : Option String) (n : Nat)
    (hh : s.hydrated = true) (hn : 0 < n) :
    persistEffect { s with sessionId := some n } stor = some (jsStringOfNat n) ∧
    (hydrateEffect (some (jsStringOfNat n)) initCopilotState).sessionId = some n ∧
    (hydrateEffect (some (jsStringOfNat n)) initCopilotState).hydrated = true := by
  refine ⟨?_, ?_, rfl⟩
  · unfold persistEffect
    simp only [hh, if_true]
    have ht : (JsNum.num (n : ℚ)).truthy = true := by
      simp only [JsNum.truthy, bne_iff_ne, ne_eq, Nat.cast_eq_zero]
      omega
    simp [ht, jsStringOfNum, jsStringOfRat, Rat.den_natCast, Rat.num_natCast,
      Int.toNat_natCast, Int.natCast_nonneg]
  · unfold hydrateEffect
    have hg : jsGtZero (JsNum.num (n : ℚ)) = true := by
      simp only [jsGtZero, decide_eq_true_eq]
      have h1 : (1 : ℚ) / 2 ^ 1075 < 1 := by
        rw [div_lt_one (by positivity)]
        exact one_lt_pow₀ (by norm_num) (by norm_num)
      have h2 : (1 : ℚ) ≤ (n : ℚ) := by exact_mod_cast hn
      linarith
    simp [jsStringOfNat_ne_empty n, jsNumber_jsStringOfNat n hn, hg]

/-- Witness for C5 at the session id 42. -/
theorem c5_witness :
    persistEffect { initCopilotState with sessionId := some 42, hydrated := true } none
      = some (jsStringOfNat 42) ∧
    (hydrateEffect (some (jsStringOfNat 42)) initCopilotState).sessionId = some 42 ∧
    (hydrateEffect (some (jsStringOfNat 42)) initCopilotState).hydrated = true := by
  have h := c5_session_roundtrip
    { initCopilotState with hydrated := true } none 42 rfl (by norm_num)
  exact h

/-- C1 (counterexample): the claim "a previously generated question is
still visible after a failed `generateQuestion()`" is false: at a state
holding the question `"What is a JOIN?"`, a failing `generateQuestion()`
leaves the question text empty, not the prior question. -/
theorem c1_counterexample :
    c1ExState.question = "What is a JOIN?" ∧
    (generateQuestion c1ExState (Except.error "Network error")).1.error
      = some "Network error" ∧
    (generateQuestion c1ExState (Except.error "Network error")).1.question = "" ∧
    (generateQuestion c1ExState (Except.error "Network error")).1.question
      ≠ c1ExState.question := by
  refine ⟨rfl, rfl, rfl, ?_⟩
  decide

/-- C1 (amended): on every failed `createSession()` run, and on every
failed `generateQuestion()` run that issues its backend call (the
operation returns up front when the session id is falsy), the error
message is recorded and the session id (and config) is unchanged, but
the question text, answer text, evaluation, qa-item id and hint have
been cleared — they are reset before the backend call, so the previous
question is no longer visible. -/
theorem c1_failure_behavior (s : CopilotState) (e1 e2 : String) :
    createSession s (Except.error e1)
      = { s with error := some e1, evaluation := none, question := "",
                 answer := "", qaItemId := none, hint := none,
                 hintLoading := false, loading := none } ∧
    (jsTruthyNum s.sessionId = true →
      generateQuestion s (Except.error e2)
        = ({ s with error := some e2, evaluation := none, question := "",
                    answer := "", qaItemId := none, hint := none,
                    hintLoading := false, loading := none }, true)) := by
  refine ⟨rfl, fun hs => ?_⟩
  unfold generateQuestion
  rw [hs]
  rfl

/-- Witness for C1 (amended) at a state with an active session and
question. -/
theorem c1_witness :
    createSession c1ExState (Except.error "boom")
      = { c1ExState with error := some "boom", evaluation := none,
                         question := "", answer := "", qaItemId := none,
                         hint := none, hintLoading := false, loading := none } ∧
    generateQuestion c1ExState (Except.error "boom")
      = ({ c1ExState with error := some "boom", evaluation := none,
                          question := "", answer := "", qaItemId := none,
                          hint := none, hintLoading := false, loading := none },
         true) :=
  ⟨(c1_failure_behavior c1ExState "boom" "boom").1,
   (c1_failure_behavior c1ExState "boom" "boom").2 (by decide)⟩

/-- C2 (counterexample): the claim that a failed `submitAnswer()` leaves
the transcript unchanged is false: the answer entry is appended before
the backend call, so after a failing call the transcript has grown. -/
theorem c2_counterexample :
    (submitAnswer c2ExState (Except.error "Network error")
        (Except.error "unused")).1.chat
      = c2ExState.chat ++ [ChatItem.answer "My answer"] ∧
    (submitAnswer c2ExState (Except.error "Network error")
        (Except.error "unused")).1.chat ≠ c2ExState.chat := by
  refine ⟨rfl, ?_⟩
  decide

/-- C2 (amended): on a failed backend answer call, the question
identifier, turn count and adaptive difficulty are unchanged and only an
error message is surfaced — but the transcript is not in its pre-call
state: it has grown by exactly the answer entry that was appended before
the call. -/
theorem c2_submit_failure (s : InterviewState) (e : String)
    (nextRes : Except String InterviewNextOut)
    (hactive : s.sessionId.isSome ∧ s.currentQaId.isSome)
    (hans : ¬ jsTrim s.answer = "") :
    submitAnswer s (Except.error e) nextRes
      = ({ s with
            error := some e
            busy := false
            chat := s.chat ++ [ChatItem.answer (jsTrim s.answer)] },
         [ApiCall.interviewAnswer]) := by
  unfold submitAnswer
  rw [if_pos hactive, if_neg hans]

/-- Witness for C2 (amended) at an interview awaiting its first answer. -/
theorem c2_witness :
    submitAnswer c2ExState (Except.error "Network error") (Except.error "unused")
      = ({ c2ExState with
            error := some "Network error"
            busy := false
            chat := c2ExState.chat ++ [ChatItem.answer (jsTrim c2ExState.answer)] },
         [ApiCall.interviewAnswer]) :=
  c2_submit_failure c2ExState "Network error" (Except.error "unused")
    (by decide) (by decide)

/-- C7: starting an interview with the default setup (track `"Backend"`,
level intermediate, type `"Technical"`) yields turn count 1 and a
transcript holding exactly one question entry; submitting a non-empty
answer whose backend response carries an evaluation, no follow-up, and
`interview_complete = true` appends exactly one answer and one
evaluation entry and nulls the active question identifier. -/
theorem c7_interview_scenario (startRes : InterviewStartOut) (a : String)
    (res : InterviewAnswerOut) (ev : InterviewEvaluation)
    (nextRes : Except String InterviewNextOut)
    (ha : ¬ jsTrim a = "")
    (hev : res.evaluation = some ev)
    (hq : res.follow_up_question = none)
    (hid : res.follow_up_qa_item_id = none)
    (hc : res.interview_complete = true) :
    (startInterview initInterviewState (Except.ok startRes)).turnCount = 1 ∧
    (startInterview initInterviewState (Except.ok startRes)).chat
      = [ChatItem.question startRes.qa_item_id startRes.first_question
          ⟨false, 1, Level.intermediate⟩] ∧
    (submitAnswer { (startInterview initInterviewState (Except.ok startRes)) with
        answer := a } (Except.ok res) nextRes).1.chat
      = (startInterview initInterviewState (Except.ok startRes)).chat
          ++ [ChatItem.answer (jsTrim a), ChatItem.evaluation ev] ∧
    (submitAnswer { (startInterview initInterviewState (Except.ok startRes)) with
        answer := a } (Except.ok res) nextRes).1.currentQaId = none := by
  refine ⟨rfl, rfl, ?_⟩
  unfold submitAnswer
  rw [if_pos (by simp [startInterview]), if_neg ha]
  simp only [startInterview]
  rw [hev, hq, hid]
  unfold submitAnswer.completeOrNext
  rw [hc]
  simp

/-- Witness for C7 at a concrete start response and completion
response. -/
theorem c7_witness :
    (startInterview initInterviewState
        (Except.ok ⟨11, "Explain REST.", 21⟩)).turnCount = 1 ∧
    (startInterview initInterviewState
        (Except.ok ⟨11, "Explain REST.", 21⟩)).chat
      = [ChatItem.question 21 "Explain REST." ⟨false, 1, Level.intermediate⟩] ∧
    (submitAnswer { (startInterview initInterviewState
          (Except.ok ⟨11, "Explain REST.", 21⟩)) with answer := "Stateless APIs." }
        (Except.ok ⟨some ⟨[], 8, [], [], [], "model"⟩, none, none, true,
          JsVal.num 2, 1⟩)
        (Except.error "unused")).1.chat
      = (startInterview initInterviewState
          (Except.ok ⟨11, "Explain REST.", 21⟩)).chat
          ++ [ChatItem.answer (jsTrim "Stateless APIs."),
              ChatItem.evaluation ⟨[], 8, [], [], [], "model"⟩] ∧
    (submitAnswer { (startInterview initInterviewState
          (Except.ok ⟨11, "Explain REST.", 21⟩)) with answer := "Stateless APIs." }
        (Except.ok ⟨some ⟨[], 8, [], [], [], "model"⟩, none, none, true,
          JsVal.num 2, 1⟩)
        (Except.error "unused")).1.currentQaId = none :=
  c7_interview_scenario ⟨11, "Explain REST.", 21⟩ "Stateless APIs."
    ⟨some ⟨[], 8, [], [], [], "model"⟩, none, none, true, JsVal.num 2, 1⟩
    ⟨[], 8, [], [], [], "model"⟩ (Except.error "unused")
    (by decide) rfl rfl rfl rfl

/-- C8: `submitAnswer()` with an empty trimmed answer or no active
question makes no backend call, reports a local validation error, and
leaves the transcript, turn count and question identifier unchanged. -/
theorem c8_submit_validation (s : InterviewState)
    (ansRes : Except String InterviewAnswerOut)
    (nextRes : Except String InterviewNextOut)
    (h : s.sessionId = none ∨ s.currentQaId = none ∨ jsTrim s.answer = "") :
    (submitAnswer s ansRes nextRes).2 = [] ∧
    (submitAnswer s ansRes nextRes).1.chat = s.chat ∧
    (submitAnswer s ansRes nextRes).1.turnCount = s.turnCount ∧
    (submitAnswer s ansRes nextRes).1.currentQaId = s.currentQaId ∧
    ((submitAnswer s ansRes nextRes).1.error
        = some "No active interview. Please start again." ∨
     (submitAnswer s ansRes nextRes).1.error
        = some "Please write an answer before submitting.") := by
  unfold submitAnswer
  by_cases hact : s.sessionId.isSome ∧ s.currentQaId.isSome
  · have ha : jsTrim s.answer = "" := by
      rcases h with h | h | h
      · rw [h] at hact; simp at hact
      · rw [h] at hact; simp at hact
      · exact h
    rw [if_pos hact, if_pos ha]
    exact ⟨rfl, rfl, rfl, rfl, Or.inr rfl⟩
  · rw [if_neg hact]
    exact ⟨rfl, rfl, rfl, rfl, Or.inl rfl⟩

/-- Witness for C8 at a started interview whose answer is whitespace
only. -/
theorem c8_witness :
    (submitAnswer { c2ExState with answer := "   " }
        (Except.error "unused") (Except.error "unused")).2 = [] ∧
    (submitAnswer { c2ExState with answer := "   " }
        (Except.error "unused") (Except.error "unused")).1.chat
      = ({ c2ExState with answer := "   " } : InterviewState).chat ∧
    (submitAnswer { c2ExState with answer := "   " }
        (Except.error "unused") (Except.error "unused")).1.turnCount
      = ({ c2ExState with answer := "   " } : InterviewState).turnCount ∧
    (submitAnswer { c2ExState with answer := "   " }
        (Except.error "unused") (Except.error "unused")).1.currentQaId
      = ({ c2ExState with answer := "   " } : InterviewState).currentQaId ∧
    ((submitAnswer { c2ExState with answer := "   " }
        (Except.error "unused") (Except.error "unused")).1.error
        = some "No active interview. Please start again." ∨
     (submitAnswer { c2ExState with answer := "   " }
        (Except.error "unused") (Except.error "unused")).1.error
        = some "Please write an answer before submitting.") :=
  c8_submit_validation { c2ExState with answer := "   " }
    (Except.error "unused") (Except.error "unused") (Or.inr (Or.inr (by decide)))

/-- C6: once the `useWeakTopics` dependencies have changed session (or
the component has unmounted) while a fetch is in flight, that fetch's
resolution — with any outcome — leaves the hook state untouched: the
stale response updates neither `weakTopics` nor the loading/error
flags. -/
theorem c6_stale_fetch_discarded (m : WeakMachine) (hm : WeakReachable m)
    (id : Nat) (res : Except FetchErr (List WeakTopic))
    (h : id < m.runId ∨ (m.mounted = false ∧ id ≤ m.runId)) :
    (weakStep m (.resolve id res)).st = m.st := by
  have hc := weakReachable_cancelled hm
  have hcan : m.cancelled id = true := by
    rcases h with h | ⟨hm0, hle⟩
    · exact hc.1 id h
    · rcases Nat.lt_or_ge id m.runId with h2 | h2
      · exact hc.1 id h2
      · have : id = m.runId := le_antisymm hle h2
        rw [this]
        exact hc.2 hm0
  simp [weakStep, weakRunResolve, hcan]

/-- Witness for C6: the fetch started for session 1 (run 0) resolves
after the session changed to 2 (run 1) and changes nothing. -/
theorem c6_witness :
    (weakStep c6TraceM1 (WeakEvent.resolve 0
        (Except.ok [⟨"joins", 2, 1⟩]))).st = c6TraceM1.st :=
  c6_stale_fetch_discarded c6TraceM1
    (WeakReachable.step (weakInit (some 1)) (WeakEvent.depsChange (some 2))
      (WeakReachable.init (some 1)))
    0 (Except.ok [⟨"joins", 2, 1⟩]) (Or.inl (by decide))

end InterviewCopilot
